import Mathlib

/-!
Shallow embedding of the Databricks orchestrator
(`src/zenml/integrations/databricks/orchestrators/databricks_orchestrator.py`)
and proofs about the pipeline submission workflow it implements.

Strings are modelled by Lean `String`; the insertion-ordered Python dict
`deployment.step_configurations` is modelled as an association list; the
effectful submission flow is modelled as a trace-producing function over an
`Ops` record of outcomes of the external operations (filesystem, wheel build,
Databricks API), each of which can succeed or fail.
-/

namespace Databricks

/-- Constant `ENV_ZENML_DATABRICKS_ORCHESTRATOR_RUN_ID` from the source. -/
def ENV_ZENML_DATABRICKS_ORCHESTRATOR_RUN_ID : String :=
  "ZENML_DATABRICKS_ORCHESTRATOR_RUN_ID"

/-- Constant `ZENML_STEP_DEFAULT_ENTRYPOINT_COMMAND` from the source. -/
def ZENML_STEP_DEFAULT_ENTRYPOINT_COMMAND : String := "entrypoint.main"

/-- A step configuration of a deployment.  `upstream_steps` models
`step.spec.upstream_steps`; `requirements_files` models the `(filename,
contents)` pairs returned by `gather_requirements_files` for the step's docker
settings (an external call, recorded here as data carried by the step). -/
structure StepConfig where
  upstream_steps : List String
  requirements_files : List (String × String)
deriving Repr, DecidableEq

/-- A pipeline deployment: its id, its pipeline name and the insertion-ordered
mapping from step name to step configuration. -/
structure PipelineDeployment where
  id : String
  pipeline_name : String
  step_configurations : List (String × StepConfig)
deriving Repr, DecidableEq

/-- The task descriptor handed to the Databricks jobs API. -/
structure DatabricksTask where
  task_key : String
  entrypoint : String
  arguments : List String
  requirements : List String
  depends_on : List String
deriving Repr, DecidableEq

/-- Modelled from the spec: `convert_step_to_task`
(`zenml.integrations.databricks.orchestrators.databricks_utils`, not under
`src/`) packages the given task identifier, entrypoint command, argument list,
requirement list and upstream identifier list into a task descriptor. -/
def convert_step_to_task (task_name command : String)
    (arguments requirements depends_on : List String) : DatabricksTask :=
  ⟨task_name, command, arguments, requirements, depends_on⟩

/-- Modelled from the spec: `StepEntrypointConfiguration.get_entrypoint_arguments`
(not under `src/`) produces a fixed argument template encoding the step name
and the deployment identifier. -/
def get_entrypoint_arguments (step_name deployment_id : String) : List String :=
  ["--step_name", step_name, "--deployment_id", deployment_id]

/-- The `env_vars` list built in `prepare_or_run_pipeline` (lines 255-262):
one `"key=value"` string per entry of the caller-supplied environment, in
mapping order, followed by the two always-appended entries: the source-prefix
marker and the run-id entry carrying the deployment id. -/
def env_vars_for_step (environment : List (String × String))
    (deployment_id : String) : List String :=
  (environment.map fun kv => kv.1 ++ "=" ++ kv.2)
    ++ ["ZENML_DATABRICKS_SOURCE_PREFIX=zenmlproject",
        "ZENML_DATABRICKS_ORCHESTRATOR_RUN_ID=" ++ deployment_id]

/-- The same environment as key/value pairs, before formatting: the base
entries in mapping order with the two injected entries appended last. -/
def taskEnv (environment : List (String × String))
    (deployment_id : String) : List (String × String) :=
  environment
    ++ [("ZENML_DATABRICKS_SOURCE_PREFIX", "zenmlproject"),
        ("ZENML_DATABRICKS_ORCHESTRATOR_RUN_ID", deployment_id)]

/-- Last-write-wins flattening of an environment entry list (spec §3:
"duplicate keys are resolved last-write-wins when flattened into the final
task environment"): the value of the last entry with the given key. -/
def resolveEnv (l : List (String × String)) (k : String) : Option String :=
  (l.reverse.find? fun kv => kv.1 == k).map Prod.snd

/-- The translation loop of `_construct_databricks_pipeline` (lines 232-308):
for each step, in mapping order, build the entrypoint arguments, the `--env`
argument, the prefixed upstream identifiers and the flattened requirements
list, and convert them to a task.  No validation of the dependency graph is
performed. -/
def construct_databricks_pipeline (deployment : PipelineDeployment)
    (environment : List (String × String)) : List DatabricksTask :=
  deployment.step_configurations.map fun p =>
    let step_name := p.1
    let step := p.2
    let arguments := get_entrypoint_arguments step_name deployment.id
    let env_arg := String.intercalate "," (env_vars_for_step environment deployment.id)
    let arguments := arguments ++ ["--env", env_arg]
    let upstream_steps :=
      step.upstream_steps.map fun u => deployment.id ++ "_" ++ u
    let requirements :=
      (step.requirements_files.map fun r => r.2.splitOn "\n").flatten
    convert_step_to_task (deployment.id ++ "_" ++ step_name)
      ZENML_STEP_DEFAULT_ENTRYPOINT_COMMAND arguments requirements
      upstream_steps

/-- Observable events of one submission, in the order the source performs
them.  `recordMapping` is the run-identity persistence operation of the spec's
Run Identity Correlator; it is included so that its absence from every trace
is expressible. -/
inductive Event where
  | copyRepo
  | createWheel
  | copyWheelToPipelineDir
  | rmtreeTempDir
  | ensureLocation
  | upload
  | translate (step_name : String)
  | submitJob
  | recordMapping
deriving Repr, DecidableEq

/-- Errors a submission can stop with (each external operation of the source
can raise; the constructors name the operation that raised). -/
inductive Err where
  | notebookError
  | packagingError
  | uploadError
  | translationError
  | submissionError
deriving Repr, DecidableEq

/-- Outcomes of the external operations invoked by `prepare_or_run_pipeline`:
whether the code runs in a notebook, and whether each fallible call (wheel
build, wheel copy, remote directory creation, remote upload, per-step
translation, job creation) succeeds or raises. -/
structure Ops where
  in_notebook : Bool
  create_wheel_ok : Bool
  copy_wheel_ok : Bool
  ensure_location_ok : Bool
  upload_ok : Bool
  translate_ok : String → Bool
  submit_ok : Bool

/-- Result of one call to `prepare_or_run_pipeline`: the trace of events that
occurred, whether the scoped temporary packaging directory still exists when
the call returns or raises, and the outcome (the Python method returns `None`
on success). -/
structure RunResult where
  trace : List Event
  temp_dir_exists : Bool
  result : Except Err Unit
deriving Repr

/-- The body of the translation loop with its attempt events: steps are
translated in mapping order; the first step whose translation raises stops
the loop (a Python exception propagates), so later steps are not attempted.
Returns the attempted steps' events and whether all attempts succeeded. -/
def translateSteps (translate_ok : String → Bool) :
    List (String × StepConfig) → List Event × Bool
  | [] => ([], true)
  | p :: rest =>
    if translate_ok p.1 then
      let r := translateSteps translate_ok rest
      (Event.translate p.1 :: r.1, r.2)
    else ([Event.translate p.1], false)

/-- Trace semantics of `prepare_or_run_pipeline` (lines 180-375), following
the source order exactly: notebook check; copy the repository to a temporary
directory (`copy_repository_to_temp_dir_and_add_setup_py`, which creates the
scoped temporary directory); build the wheel in it (`create_wheel`); copy the
wheel to the pipeline directory (`fileio.copy`); remove the temporary
directory (`fileio.rmtree`); create the remote directory
(`files.create_directory`); upload the wheel (`files.upload`); then call
`_upload_and_run_pipeline` whose `tasks` argument evaluates
`_construct_databricks_pipeline()` (the translation loop) before
`jobs.create` submits the job.  There is no try/finally: an exception at any
point propagates immediately, skipping everything after it. -/
def prepare_or_run_pipeline (ops : Ops)
    (deployment : PipelineDeployment) : RunResult :=
  if ops.in_notebook then
    ⟨[], false, .error .notebookError⟩
  else
    -- the repository copy creates the scoped temporary directory
    let t1 := [Event.copyRepo]
    if !ops.create_wheel_ok then
      ⟨t1 ++ [Event.createWheel], true, .error .packagingError⟩
    else
      let t2 := t1 ++ [Event.createWheel]
      if !ops.copy_wheel_ok then
        ⟨t2 ++ [Event.copyWheelToPipelineDir], true, .error .packagingError⟩
      else
        let t3 := t2 ++ [Event.copyWheelToPipelineDir, Event.rmtreeTempDir]
        if !ops.ensure_location_ok then
          ⟨t3 ++ [Event.ensureLocation], false, .error .uploadError⟩
        else
          let t4 := t3 ++ [Event.ensureLocation]
          if !ops.upload_ok then
            ⟨t4 ++ [Event.upload], false, .error .uploadError⟩
          else
            let t5 := t4 ++ [Event.upload]
            let tr := translateSteps ops.translate_ok deployment.step_configurations
            if !tr.2 then
              ⟨t5 ++ tr.1, false, .error .translationError⟩
            else
              let t6 := t5 ++ tr.1
              if !ops.submit_ok then
                ⟨t6 ++ [Event.submitJob], false, .error .submissionError⟩
              else
                ⟨t6 ++ [Event.submitJob], false, .ok ()⟩

/-- Trace semantics of `_upload_and_run_pipeline` (lines 377-398): it calls
`jobs.create(name=pipeline_name, tasks=tasks)` and returns `None`.  The
backend's response (the backend-assigned job identifier, modelled as the
`backend_job_id` argument) is not bound to anything: the method neither
returns it nor records any mapping. -/
def upload_and_run_pipeline (backend_job_id : Nat) (pipeline_name : String)
    (tasks : List DatabricksTask) (run_name : String) :
    List Event × Unit :=
  ([Event.submitJob], ())

/-- One-step upstream relation of a deployment: the declared upstream step
names of `s` (empty when `s` is not a key of the mapping). -/
def upstreamOf (deployment : PipelineDeployment) (s : String) : List String :=
  match deployment.step_configurations.find? (fun p => p.1 == s) with
  | some p => p.2.upstream_steps
  | none => []

/-- Fuel-bounded reachability along upstream references: `reachable d n a b`
holds when a chain of at most `n` upstream edges leads from `a` to `b`. -/
def reachable (deployment : PipelineDeployment) :
    Nat → String → String → Bool
  | 0, _, _ => false
  | n + 1, a, b =>
    (upstreamOf deployment a).any fun u =>
      u == b || reachable deployment n u b

/-- A deployment has a cycle when some step transitively depends on itself. -/
def hasCycle (deployment : PipelineDeployment) : Bool :=
  deployment.step_configurations.any fun p =>
    reachable deployment deployment.step_configurations.length p.1 p.1

/-- A stack component as the validator sees it: its name, its type and
whether its configuration marks it as local. -/
structure StackComponent where
  name : String
  type_value : String
  is_local : Bool
deriving Repr, DecidableEq

/-- The body of the validator's `for` loop (lines 84-96) for one component:
`none` means the loop continues, `some r` means the function returns `r`.
The first statement of the loop body is an unconditional
`continue  # TODO: Remove this line`, so the local-component check behind it
is dead code. -/
def component_loop_body (component : StackComponent) :
    Option (Bool × String) :=
  if true then none  -- continue  # TODO: Remove this line
  else
    if !component.is_local then none
    else
      some (false,
        "The Databricks orchestrator runs pipelines remotely, but the " ++
        component.name ++ " " ++ component.type_value ++
        " is a local stack component and will not be available in the Databricks step.")

/-- Function `_validate_remote_components` (lines 81-98): run the loop body on each
component in order; the first `some` result is returned, otherwise
`(True, "")`. -/
def validate_remote_components (components : List StackComponent) :
    Bool × String :=
  match components.findSome? component_loop_body with
  | some r => r
  | none => (true, "")

/-- Function `get_orchestrator_run_id` (lines 140-150): the body is a single
`return os.getenv(ENV_ZENML_DATABRICKS_ORCHESTRATOR_RUN_ID)`.  The process
environment is modelled as a lookup function; `os.getenv` of an unset
variable is `None`, and nothing in the body can raise. -/
def get_orchestrator_run_id (env : String → Option String) : Option String :=
  env ENV_ZENML_DATABRICKS_ORCHESTRATOR_RUN_ID

/-- Modelled from the spec: the docstring of `get_orchestrator_run_id`
promises `RuntimeError: If no run id exists.`; this is the documented
behaviour, for comparison with the implemented one. -/
def get_orchestrator_run_id_documented (env : String → Option String) :
    Except String String :=
  match env ENV_ZENML_DATABRICKS_ORCHESTRATOR_RUN_ID with
  | some v => .ok v
  | none => .error "RuntimeError"

/-!
`sanitize_cluster_name` (lines 400-414).  Python strings are modelled as
lists of Unicode code points (`Nat`); `str.lower` is modelled on the ASCII
range (code points 65-90 map to 97-122), which is exact for the properties
below because the subsequent substitution replaces every character outside
`[a-z0-9-]` (code points 97-122, 48-57 and 45) by a hyphen either way.
-/

/-- One character of `name.lower()`: ASCII uppercase maps to lowercase. -/
def lowerChar (c : Nat) : Nat :=
  if 65 ≤ c ∧ c ≤ 90 then c + 32 else c

/-- Whether a code point matches the character class `[a-z0-9-]`:
a lowercase ASCII letter (97-122), a digit (48-57) or a hyphen (45). -/
def isAllowedChar (c : Nat) : Bool :=
  (97 ≤ c && c ≤ 122) || (48 ≤ c && c ≤ 57) || c == 45

/-- Model of `re.sub(r"[^a-z0-9-]", "-", s)`: every character not in the class is
replaced by a hyphen (45). -/
def subDisallowed (s : List Nat) : List Nat :=
  s.map fun c => if isAllowedChar c then c else 45

/-- Model of `re.sub(r"^[-]+", "", s)`: remove the leading run of hyphens. -/
def trimLeadingHyphens (s : List Nat) : List Nat :=
  s.dropWhile fun c => c == 45

/-- Model of `re.sub(r"[-]+$", "", s)`: remove the trailing run of hyphens. -/
def trimTrailingHyphens (s : List Nat) : List Nat :=
  (s.reverse.dropWhile fun c => c == 45).reverse

/-- Function `sanitize_cluster_name`: lowercase, replace every character outside
`[a-z0-9-]` by a hyphen, then trim leading and trailing hyphens. -/
def sanitize_cluster_name (name : List Nat) : List Nat :=
  trimTrailingHyphens (trimLeadingHyphens (subDisallowed (name.map lowerChar)))

/-! Concrete inputs used by witnesses and counterexamples. -/

/-- The end-to-end scenario deployment of the spec:
`extract` (no upstream), `transform` (upstream `extract`),
`load` (upstream `transform`), with deployment id `"d"`. -/
def deploymentETL : PipelineDeployment :=
  ⟨"d", "etl",
    [("extract", ⟨[], []⟩), ("transform", ⟨["extract"], []⟩),
     ("load", ⟨["transform"], []⟩)]⟩

/-- A deployment whose single step `"a"` lists itself upstream. -/
def deploymentCyclic : PipelineDeployment :=
  ⟨"d", "p", [("a", ⟨["a"], []⟩)]⟩

/-- Operation outcomes where every external call succeeds. -/
def opsAllOk : Ops :=
  ⟨false, true, true, true, true, fun _ => true, true⟩

/-- Operation outcomes where the wheel build raises. -/
def opsWheelFail : Ops :=
  ⟨false, false, true, true, true, fun _ => true, true⟩

/-- Operation outcomes where the translation of step `"load"` raises and
everything else succeeds. -/
def opsTranslateFail : Ops :=
  ⟨false, true, true, true, true, fun s => !(s == "load"), true⟩

/-- A local stack component (its config marks it as local). -/
def localComponent : StackComponent :=
  ⟨"default", "artifact_store", true⟩

/-! Helper lemmas shared by the claim theorems. -/

/-- The loop body of the validator returns `none` on every component: the
unconditional `continue` precedes the local-component check. -/
theorem component_loop_body_eq_none (c : StackComponent) :
    component_loop_body c = none := rfl

/-- Every event emitted by the translation loop is a `translate` event. -/
theorem translateSteps_events (f : String → Bool) :
    ∀ (l : List (String × StepConfig)) (e : Event),
      e ∈ (translateSteps f l).1 → ∃ s, e = Event.translate s := by
  intro l
  induction l with
  | nil => intro e h; cases h
  | cons p rest ih =>
    intro e h
    by_cases hp : f p.1 = true
    · simp only [translateSteps, hp, if_pos] at h
      rcases List.mem_cons.mp h with h1 | h1
      · exact ⟨p.1, h1⟩
      · exact ih e h1
    · simp only [translateSteps, hp, if_neg, Bool.not_eq_true] at h
      simp only [List.mem_singleton] at h
      exact ⟨p.1, h⟩

/-- If every per-step translation succeeds, the translation loop succeeds. -/
theorem translateSteps_ok (f : String → Bool) (hf : ∀ s, f s = true) :
    ∀ l : List (String × StepConfig), (translateSteps f l).2 = true := by
  intro l
  induction l with
  | nil => rfl
  | cons p rest ih => simp [translateSteps, hf p.1, ih]

/-! ## C8 -/

/-- C8: for every stack, the Databricks orchestrator's custom validation
function `_validate_remote_components` returns `(True, "")`, and the
per-component local-component check is never executed (the loop body yields
nothing for any component, local or not), so validation never rejects any
stack. -/
theorem C8_validator_accepts_every_stack (components : List StackComponent) :
    validate_remote_components components = (true, "") ∧
    ∀ c ∈ components, component_loop_body c = none := by
  constructor
  · unfold validate_remote_components
    have h : components.findSome? component_loop_body = none := by
      induction components with
      | nil => rfl
      | cons a l ih =>
        simp [List.findSome?_cons, component_loop_body_eq_none, ih]
    rw [h]
  · intro c _
    exact component_loop_body_eq_none c

/-- Witness for C8: a stack containing a local artifact store is accepted
and its component is never checked. -/
theorem C8_validator_accepts_every_stack_witness :
    validate_remote_components [localComponent] = (true, "") ∧
    component_loop_body localComponent = none :=
  ⟨(C8_validator_accepts_every_stack [localComponent]).1,
   (C8_validator_accepts_every_stack [localComponent]).2 localComponent
     (List.mem_singleton.mpr rfl)⟩

/-! ## C9 -/

/-- C9: `get_orchestrator_run_id` never raises: for every environment state
it returns the value of the `ZENML_DATABRICKS_ORCHESTRATOR_RUN_ID` variable,
and when that variable is unset it returns `none` — whereas the documented
behaviour raises `RuntimeError` exactly then. -/
theorem C9_get_orchestrator_run_id_never_raises (env : String → Option String) :
    get_orchestrator_run_id env = env ENV_ZENML_DATABRICKS_ORCHESTRATOR_RUN_ID ∧
    (env ENV_ZENML_DATABRICKS_ORCHESTRATOR_RUN_ID = none →
      get_orchestrator_run_id env = none ∧
      get_orchestrator_run_id_documented env = .error "RuntimeError") := by
  refine ⟨rfl, fun h => ⟨?_, ?_⟩⟩
  · simp [get_orchestrator_run_id, h]
  · simp [get_orchestrator_run_id_documented, h]

/-- Witness for C9: in the empty environment the run id is `none` and the
documented behaviour would have raised. -/
theorem C9_get_orchestrator_run_id_never_raises_witness :
    get_orchestrator_run_id (fun _ => none) = none ∧
    get_orchestrator_run_id_documented (fun _ => none) = .error "RuntimeError" :=
  (C9_get_orchestrator_run_id_never_raises (fun _ => none)).2 rfl

/-! ## C4 -/

/-- C4: the translated task environment is the caller-supplied base entries,
in mapping order, followed by the two always-injected entries (the
source-prefix marker and the deployment's run identifier) appended last; the
`env_vars` strings are exactly the formatting of those pairs; and under
last-write-wins flattening the injected entries win on their keys while every
other key resolves to its base value. -/
theorem C4_env_injection_order (environment : List (String × String))
    (deployment_id : String) :
    taskEnv environment deployment_id
      = environment
          ++ [("ZENML_DATABRICKS_SOURCE_PREFIX", "zenmlproject"),
              ("ZENML_DATABRICKS_ORCHESTRATOR_RUN_ID", deployment_id)] ∧
    env_vars_for_step environment deployment_id
      = (taskEnv environment deployment_id).map (fun kv => kv.1 ++ "=" ++ kv.2) ∧
    resolveEnv (taskEnv environment deployment_id)
        "ZENML_DATABRICKS_SOURCE_PREFIX" = some "zenmlproject" ∧
    resolveEnv (taskEnv environment deployment_id)
        "ZENML_DATABRICKS_ORCHESTRATOR_RUN_ID" = some deployment_id ∧
    ∀ k : String, k ≠ "ZENML_DATABRICKS_SOURCE_PREFIX" →
      k ≠ "ZENML_DATABRICKS_ORCHESTRATOR_RUN_ID" →
      resolveEnv (taskEnv environment deployment_id) k = resolveEnv environment k := by
  refine ⟨rfl, ?_, ?_, ?_, ?_⟩
  · simp [env_vars_for_step, taskEnv]
  · simp [resolveEnv, taskEnv, List.find?_cons]
  · simp [resolveEnv, taskEnv, List.find?_cons]
  · intro k h1 h2
    simp only [resolveEnv, taskEnv, List.reverse_append, List.reverse_cons,
      List.reverse_nil, List.nil_append, List.cons_append, List.find?_cons]
    have b1 : ("ZENML_DATABRICKS_ORCHESTRATOR_RUN_ID" == k) = false := by
      simp [Ne.symm h2]
    have b2 : ("ZENML_DATABRICKS_SOURCE_PREFIX" == k) = false := by
      simp [Ne.symm h1]
    rw [b1, b2]

/-- Witness for C4: with base `{"A": "1"}` and a caller-supplied duplicate of
the run-id key `{"ZENML_DATABRICKS_ORCHESTRATOR_RUN_ID": "caller"}`, the
injected entries win on their keys and `"A"` keeps its base value. -/
theorem C4_env_injection_order_witness :
    resolveEnv (taskEnv [("A", "1"), ("ZENML_DATABRICKS_ORCHESTRATOR_RUN_ID", "caller")] "x")
        "ZENML_DATABRICKS_ORCHESTRATOR_RUN_ID" = some "x" ∧
    resolveEnv (taskEnv [("A", "1"), ("ZENML_DATABRICKS_ORCHESTRATOR_RUN_ID", "caller")] "x")
        "A" = some "1" := by
  have h := C4_env_injection_order
    [("A", "1"), ("ZENML_DATABRICKS_ORCHESTRATOR_RUN_ID", "caller")] "x"
  refine ⟨h.2.2.2.1, ?_⟩
  have := h.2.2.2.2 "A" (by decide) (by decide)
  rw [this]
  decide

/-! ## C5 -/

/-- C5: every translated task's identifier is the deployment id prefixed (with
an underscore) to the step name, and its upstream identifiers are the
deployment id prefixed to the upstream step names, in mapping order; on the
extract/transform/load deployment this yields three tasks with
`load.depends_on = ["d_transform"]` and `extract.depends_on = []`. -/
theorem C5_task_identifier_prefixing (deployment : PipelineDeployment)
    (environment : List (String × String)) :
    ((construct_databricks_pipeline deployment environment).map
        fun t => (t.task_key, t.depends_on))
      = deployment.step_configurations.map (fun p =>
          (deployment.id ++ "_" ++ p.1,
           p.2.upstream_steps.map fun u => deployment.id ++ "_" ++ u)) ∧
    ((construct_databricks_pipeline deploymentETL []).map
        fun t => (t.task_key, t.depends_on))
      = [("d_extract", []), ("d_transform", ["d_extract"]),
         ("d_load", ["d_transform"])] := by
  constructor
  · simp [construct_databricks_pipeline, convert_step_to_task, List.map_map,
      Function.comp]
  · rfl

/-! Helper lemmas about the submission trace. -/

/-- On a fully successful run the trace is: repository copy, wheel build,
wheel copy, temporary-directory removal, remote directory creation, upload,
the translation events, job submission — in that order. -/
theorem run_success_trace (ops : Ops) (deployment : PipelineDeployment)
    (h1 : ops.in_notebook = false) (h2 : ops.create_wheel_ok = true)
    (h3 : ops.copy_wheel_ok = true) (h4 : ops.ensure_location_ok = true)
    (h5 : ops.upload_ok = true)
    (h6 : (translateSteps ops.translate_ok deployment.step_configurations).2 = true) :
    (prepare_or_run_pipeline ops deployment).trace
      = [Event.copyRepo, Event.createWheel, Event.copyWheelToPipelineDir,
         Event.rmtreeTempDir, Event.ensureLocation, Event.upload]
        ++ (translateSteps ops.translate_ok deployment.step_configurations).1
        ++ [Event.submitJob] ∧
    (prepare_or_run_pipeline ops deployment).result
      = (if ops.submit_ok then .ok () else .error .submissionError) := by
  constructor
  · simp [prepare_or_run_pipeline, h1, h2, h3, h4, h5, h6]
    split <;> rfl
  · simp [prepare_or_run_pipeline, h1, h2, h3, h4, h5, h6]
    split <;> simp_all

/-- A run whose result is `ok` satisfies all the success conditions. -/
theorem run_ok_conditions (ops : Ops) (deployment : PipelineDeployment)
    (h : (prepare_or_run_pipeline ops deployment).result = .ok ()) :
    ops.in_notebook = false ∧ ops.create_wheel_ok = true ∧
    ops.copy_wheel_ok = true ∧ ops.ensure_location_ok = true ∧
    ops.upload_ok = true ∧
    (translateSteps ops.translate_ok deployment.step_configurations).2 = true ∧
    ops.submit_ok = true := by
  by_cases c1 : ops.in_notebook = true
  · simp [prepare_or_run_pipeline, c1] at h
  by_cases c2 : ops.create_wheel_ok = true
  on_goal 2 => simp [prepare_or_run_pipeline, c1, c2] at h
  by_cases c3 : ops.copy_wheel_ok = true
  on_goal 2 => simp [prepare_or_run_pipeline, c1, c2, c3] at h
  by_cases c4 : ops.ensure_location_ok = true
  on_goal 2 => simp [prepare_or_run_pipeline, c1, c2, c3, c4] at h
  by_cases c5 : ops.upload_ok = true
  on_goal 2 => simp [prepare_or_run_pipeline, c1, c2, c3, c4, c5] at h
  by_cases c6 : (translateSteps ops.translate_ok deployment.step_configurations).2 = true
  on_goal 2 => simp [prepare_or_run_pipeline, c1, c2, c3, c4, c5, c6] at h
  by_cases c7 : ops.submit_ok = true
  on_goal 2 => simp [prepare_or_run_pipeline, c1, c2, c3, c4, c5, c6, c7] at h
  exact ⟨by simp_all, c2, c3, c4, c5, c6, c7⟩

/-- No translation event equals one of the three remote-operation events. -/
theorem translate_event_ne (f : String → Bool)
    (l : List (String × StepConfig)) :
    Event.ensureLocation ∉ (translateSteps f l).1 ∧
    Event.upload ∉ (translateSteps f l).1 ∧
    Event.submitJob ∉ (translateSteps f l).1 ∧
    Event.recordMapping ∉ (translateSteps f l).1 := by
  refine ⟨?_, ?_, ?_, ?_⟩ <;>
    · intro hmem
      obtain ⟨s, hs⟩ := translateSteps_events f l _ hmem
      cases hs

/-! ## C6 -/

/-- C6: on every successful submission the three remote backend operations
occur exactly once each and in strict order: the remote directory creation
(`files.create_directory`, the ensure-location step) precedes the artifact
upload (`files.upload`), which precedes the job submission (`jobs.create`). -/
theorem C6_remote_operation_order (ops : Ops) (deployment : PipelineDeployment)
    (h : (prepare_or_run_pipeline ops deployment).result = .ok ()) :
    (prepare_or_run_pipeline ops deployment).trace.count Event.ensureLocation = 1 ∧
    (prepare_or_run_pipeline ops deployment).trace.count Event.upload = 1 ∧
    (prepare_or_run_pipeline ops deployment).trace.count Event.submitJob = 1 ∧
    List.Sublist [Event.ensureLocation, Event.upload, Event.submitJob]
      (prepare_or_run_pipeline ops deployment).trace := by
  obtain ⟨c1, c2, c3, c4, c5, c6, c7⟩ := run_ok_conditions ops deployment h
  obtain ⟨htrace, -⟩ := run_success_trace ops deployment c1 c2 c3 c4 c5 c6
  obtain ⟨hne1, hne2, hne3, hne4⟩ :=
    translate_event_ne ops.translate_ok deployment.step_configurations
  rw [htrace]
  refine ⟨?_, ?_, ?_, ?_⟩
  · simp [List.count_append, List.count_cons, List.count_eq_zero.mpr hne1]
  · simp [List.count_append, List.count_cons, List.count_eq_zero.mpr hne2]
  · simp [List.count_append, List.count_cons, List.count_eq_zero.mpr hne3]
  · have hs1 : List.Sublist [Event.submitJob]
        ((translateSteps ops.translate_ok deployment.step_configurations).1
          ++ [Event.submitJob]) :=
      List.sublist_append_right _ _
    exact ((((hs1.cons₂ _).cons₂ _).cons _).cons _).cons _ |>.cons _

/-- Witness for C6: the all-successful run of the extract/transform/load
deployment succeeds and shows the strict remote-operation order. -/
theorem C6_remote_operation_order_witness :
    (prepare_or_run_pipeline opsAllOk deploymentETL).result = .ok () ∧
    ((prepare_or_run_pipeline opsAllOk deploymentETL).trace.count
        Event.ensureLocation = 1 ∧
     (prepare_or_run_pipeline opsAllOk deploymentETL).trace.count
        Event.upload = 1 ∧
     (prepare_or_run_pipeline opsAllOk deploymentETL).trace.count
        Event.submitJob = 1 ∧
     List.Sublist [Event.ensureLocation, Event.upload, Event.submitJob]
       (prepare_or_run_pipeline opsAllOk deploymentETL).trace) :=
  ⟨rfl, C6_remote_operation_order opsAllOk deploymentETL rfl⟩

/-! ## C1 -/

/-- Counterexample to C1: on the extract/transform/load deployment where the
translation of the `load` step raises and every other operation succeeds, the
run aborts with a translation error but the artifact upload has already
happened — a remote side effect occurred although a node was invalid. -/
theorem C1_counterexample :
    (prepare_or_run_pipeline opsTranslateFail deploymentETL).result
      = .error .translationError ∧
    Event.upload ∈ (prepare_or_run_pipeline opsTranslateFail deploymentETL).trace := by
  exact ⟨rfl, by decide⟩

/-- C1 (amended): a node translation failure does abort the submission before
the job is submitted, but not before the upload: translation is evaluated
only as the `tasks` argument of `_upload_and_run_pipeline`, after the
artifact upload completed, so on translation failure the upload has already
occurred and only the job submission is prevented. -/
theorem C1_translation_failure_after_upload (ops : Ops)
    (deployment : PipelineDeployment)
    (h1 : ops.in_notebook = false) (h2 : ops.create_wheel_ok = true)
    (h3 : ops.copy_wheel_ok = true) (h4 : ops.ensure_location_ok = true)
    (h5 : ops.upload_ok = true)
    (h6 : (translateSteps ops.translate_ok deployment.step_configurations).2 = false) :
    (prepare_or_run_pipeline ops deployment).result = .error .translationError ∧
    Event.upload ∈ (prepare_or_run_pipeline ops deployment).trace ∧
    Event.submitJob ∉ (prepare_or_run_pipeline ops deployment).trace := by
  have hne :=
    (translate_event_ne ops.translate_ok deployment.step_configurations).2.2.1
  refine ⟨?_, ?_, ?_⟩
  · simp [prepare_or_run_pipeline, h1, h2, h3, h4, h5, h6]
  · simp [prepare_or_run_pipeline, h1, h2, h3, h4, h5, h6]
  · simp [prepare_or_run_pipeline, h1, h2, h3, h4, h5, h6, List.mem_append, hne]

/-- Witness for C1 (amended): the concrete failing-translation run. -/
theorem C1_translation_failure_after_upload_witness :
    (prepare_or_run_pipeline opsTranslateFail deploymentETL).result
      = .error .translationError ∧
    Event.upload ∈ (prepare_or_run_pipeline opsTranslateFail deploymentETL).trace ∧
    Event.submitJob ∉ (prepare_or_run_pipeline opsTranslateFail deploymentETL).trace :=
  C1_translation_failure_after_upload opsTranslateFail deploymentETL
    rfl rfl rfl rfl rfl (by decide)

/-! ## C2 -/

/-- Counterexample to C2: when the wheel build raises, the call raises a
packaging error and the scoped temporary packaging directory still exists —
there is no try/finally around the packaging steps. -/
theorem C2_counterexample :
    (prepare_or_run_pipeline opsWheelFail deploymentETL).result
      = .error .packagingError ∧
    (prepare_or_run_pipeline opsWheelFail deploymentETL).temp_dir_exists = true :=
  ⟨rfl, rfl⟩

/-- C2 (amended): the temporary packaging directory is gone on success and on
any exit from the upload phase onward (the `rmtree` precedes the remote
calls), but a failure of the wheel build or of the wheel copy leaves the
directory in place: it exists on return exactly when the notebook check
passed and the wheel build or wheel copy raised. -/
theorem C2_temp_dir_left_on_packaging_failure (ops : Ops)
    (deployment : PipelineDeployment) :
    (prepare_or_run_pipeline ops deployment).temp_dir_exists
      = (!ops.in_notebook && (!ops.create_wheel_ok || !ops.copy_wheel_ok)) := by
  simp only [prepare_or_run_pipeline]
  repeat' split
  all_goals simp_all

/-! ## C3 -/

/-- Counterexample to C3: on a successful submission the driver
`_upload_and_run_pipeline` produces a result that is independent of the
backend-assigned job identifier (the response of `jobs.create` is discarded;
the method returns `None`), and no run-identity mapping is ever persisted. -/
theorem C3_counterexample :
    upload_and_run_pipeline 1 "pipeline" [] "run"
      = upload_and_run_pipeline 2 "pipeline" [] "run" ∧
    (upload_and_run_pipeline 1 "pipeline" [] "run").2 = () ∧
    Event.recordMapping ∉ (upload_and_run_pipeline 1 "pipeline" [] "run").1 := by
  exact ⟨rfl, rfl, by decide⟩

/-- C3 (amended): no successful submission produces a RunHandle: the driver
returns `None` whatever job identifier the backend assigned, and neither the
driver nor the surrounding submission flow ever records a mapping to the
platform's run record. -/
theorem C3_run_handle_discarded (backend_job_id backend_job_id2 : Nat)
    (pipeline_name run_name : String) (tasks : List DatabricksTask)
    (ops : Ops) (deployment : PipelineDeployment) :
    upload_and_run_pipeline backend_job_id pipeline_name tasks run_name
      = upload_and_run_pipeline backend_job_id2 pipeline_name tasks run_name ∧
    (upload_and_run_pipeline backend_job_id pipeline_name tasks run_name).2 = () ∧
    Event.recordMapping
      ∉ (upload_and_run_pipeline backend_job_id pipeline_name tasks run_name).1 ∧
    Event.recordMapping ∉ (prepare_or_run_pipeline ops deployment).trace := by
  have hne :=
    (translate_event_ne ops.translate_ok deployment.step_configurations).2.2.2
  refine ⟨rfl, rfl, by simp [upload_and_run_pipeline], ?_⟩
  simp only [prepare_or_run_pipeline]
  repeat' split
  all_goals simp_all [List.mem_append]

/-- Witness for C3 (amended): the discard at concrete inputs. -/
theorem C3_run_handle_discarded_witness :
    upload_and_run_pipeline 7 "p" [] "r" = upload_and_run_pipeline 8 "p" [] "r" ∧
    (upload_and_run_pipeline 7 "p" [] "r").2 = () ∧
    Event.recordMapping ∉ (upload_and_run_pipeline 7 "p" [] "r").1 ∧
    Event.recordMapping ∉ (prepare_or_run_pipeline opsAllOk deploymentETL).trace :=
  C3_run_handle_discarded 7 8 "p" "r" [] opsAllOk deploymentETL

/-! ## C7 -/

/-- Counterexample to C7: the deployment whose step `a` depends on itself has
a cycle, yet translation succeeds — it produces the task `d_a` depending on
itself — and a run with otherwise-successful operations completes with no
error: no `CyclicGraphError` exists anywhere in the code. -/
theorem C7_counterexample :
    hasCycle deploymentCyclic = true ∧
    ((construct_databricks_pipeline deploymentCyclic []).map
        fun t => (t.task_key, t.depends_on)) = [("d_a", ["d_a"])] ∧
    (prepare_or_run_pipeline opsAllOk deploymentCyclic).result = .ok () := by
  exact ⟨by decide, rfl, rfl⟩

/-- C7 (amended): for any deployment containing a step that transitively
depends on itself, the translation does not fail: no cycle detection is
performed, every step is translated to a task (the cyclic upstream references
prefixed like any other), and a submission whose external operations all
succeed completes without error. -/
theorem C7_no_cycle_detection (deployment : PipelineDeployment)
    (environment : List (String × String))
    (hcycle : hasCycle deployment = true) (ops : Ops)
    (h1 : ops.in_notebook = false) (h2 : ops.create_wheel_ok = true)
    (h3 : ops.copy_wheel_ok = true) (h4 : ops.ensure_location_ok = true)
    (h5 : ops.upload_ok = true) (h6 : ∀ s, ops.translate_ok s = true)
    (h7 : ops.submit_ok = true) :
    (construct_databricks_pipeline deployment environment).length
      = deployment.step_configurations.length ∧
    (prepare_or_run_pipeline ops deployment).result = .ok () := by
  constructor
  · simp [construct_databricks_pipeline]
  · have htr := translateSteps_ok ops.translate_ok h6 deployment.step_configurations
    have hrun := run_success_trace ops deployment h1 h2 h3 h4 h5 htr
    rw [hrun.2, h7]
    rfl

/-- Witness for C7 (amended): the self-dependent deployment translates fully
and its all-successful run completes. -/
theorem C7_no_cycle_detection_witness :
    (construct_databricks_pipeline deploymentCyclic []).length
      = deploymentCyclic.step_configurations.length ∧
    (prepare_or_run_pipeline opsAllOk deploymentCyclic).result = .ok () :=
  C7_no_cycle_detection deploymentCyclic [] (by decide) opsAllOk
    rfl rfl rfl rfl rfl (fun _ => rfl) rfl

/-! ## C10 -/

/-- The trailing trim is Mathlib's `rdropWhile` on the hyphen predicate. -/
theorem trimTrailing_eq_rdropWhile (s : List Nat) :
    trimTrailingHyphens s = List.rdropWhile (fun c => c == 45) s := rfl

/-- The leading trim is `dropWhile` on the hyphen predicate. -/
theorem trimLeading_eq_dropWhile (s : List Nat) :
    trimLeadingHyphens s = s.dropWhile (fun c => c == 45) := rfl

/-- After the substitution pass every character is in `[a-z0-9-]`. -/
theorem isAllowedChar_mem_subDisallowed (s : List Nat) :
    ∀ c ∈ subDisallowed s, isAllowedChar c = true := by
  intro c hc
  simp only [subDisallowed, List.mem_map] at hc
  obtain ⟨a, _, ha⟩ := hc
  by_cases h : isAllowedChar a = true
  · rw [if_pos h] at ha
    rwa [ha] at h
  · rw [if_neg h] at ha
    rw [← ha]
    decide

/-- Characters in `[a-z0-9-]` are fixed points of the lowercasing map. -/
theorem lowerChar_fixed (c : Nat) (h : isAllowedChar c = true) :
    lowerChar c = c := by
  simp only [isAllowedChar, Bool.or_eq_true, Bool.and_eq_true,
    decide_eq_true_eq, beq_iff_eq] at h
  unfold lowerChar
  rw [if_neg (by omega)]

/-- The head of a leading-trimmed list is never a hyphen. -/
theorem trimLeading_head_ne (s : List Nat) :
    (trimLeadingHyphens s).head? ≠ some 45 := by
  rw [trimLeading_eq_dropWhile]
  intro hc
  have hne : s.dropWhile (fun c => c == 45) ≠ [] := by
    intro h0
    rw [h0] at hc
    cases hc
  have h1 := List.head_dropWhile_not (fun c => c == 45) s hne
  have h2 := List.head?_eq_head hne
  rw [hc] at h2
  have h3 : (s.dropWhile (fun c => c == 45)).head hne = 45 :=
    (Option.some.injEq _ _ ▸ h2).symm
  rw [h3] at h1
  cases h1

/-- Trimming the trailing hyphens preserves a non-hyphen head. -/
theorem trimTrailing_head_preserved (u : List Nat) (h : u.head? ≠ some 45) :
    (trimTrailingHyphens u).head? ≠ some 45 := by
  rw [trimTrailing_eq_rdropWhile]
  obtain ⟨t, ht⟩ := List.rdropWhile_prefix (fun c => c == 45) u
  intro hc
  have hne : List.rdropWhile (fun c => c == 45) u ≠ [] := by
    intro h0
    rw [h0] at hc
    cases hc
  have h1 := @List.head?_append_of_ne_nil Nat
    (List.rdropWhile (fun c => c == 45) u) t hne
  rw [ht] at h1
  exact h (h1.trans hc)

/-- The last character of a trailing-trimmed list is never a hyphen. -/
theorem trimTrailing_getLast_ne (u : List Nat) :
    (trimTrailingHyphens u).getLast? ≠ some 45 := by
  rw [trimTrailing_eq_rdropWhile]
  intro hc
  have hne : List.rdropWhile (fun c => c == 45) u ≠ [] := by
    intro h0
    rw [h0] at hc
    cases hc
  have h1 := List.rdropWhile_last_not (fun c => c == 45) u hne
  have h2 := List.getLast?_eq_getLast_of_ne_nil hne
  rw [hc] at h2
  have h3 : (List.rdropWhile (fun c => c == 45) u).getLast hne = 45 :=
    (Option.some.injEq _ _ ▸ h2).symm
  rw [h3] at h1
  exact h1 rfl

/-- A list of `[a-z0-9-]` characters is fixed by the lowercasing map. -/
theorem map_lowerChar_fixed (r : List Nat)
    (h : ∀ c ∈ r, isAllowedChar c = true) : r.map lowerChar = r := by
  induction r with
  | nil => rfl
  | cons a t ih =>
    simp only [List.map_cons]
    rw [lowerChar_fixed a (h a (by simp)),
      ih fun c hc => h c (by simp [hc])]

/-- A list of `[a-z0-9-]` characters is fixed by the substitution pass. -/
theorem subDisallowed_fixed (r : List Nat)
    (h : ∀ c ∈ r, isAllowedChar c = true) : subDisallowed r = r := by
  induction r with
  | nil => rfl
  | cons a t ih =>
    simp only [subDisallowed, List.map_cons] at ih ⊢
    rw [if_pos (h a (by simp)), ih fun c hc => h c (by simp [hc])]

/-- A list whose head is not a hyphen is fixed by the leading trim. -/
theorem trimLeading_fixed (r : List Nat) (h : r.head? ≠ some 45) :
    trimLeadingHyphens r = r := by
  cases r with
  | nil => rfl
  | cons a t =>
    by_cases ha : a = 45
    · subst ha
      exact absurd rfl h
    · simp [trimLeadingHyphens, List.dropWhile_cons, ha]

/-- A list whose last character is not a hyphen is fixed by the trailing
trim. -/
theorem trimTrailing_fixed (r : List Nat) (h : r.getLast? ≠ some 45) :
    trimTrailingHyphens r = r := by
  rw [trimTrailing_eq_rdropWhile]
  refine List.rdropWhile_eq_self_iff.mpr ?_
  intro hl hp
  have h2 := List.getLast?_eq_getLast_of_ne_nil hl
  rw [show r.getLast hl = 45 by simpa using hp] at h2
  exact h h2

/-- C10: for every input, `sanitize_cluster_name` returns a string containing
only characters of `[a-z0-9-]` (lowercase letters, digits, hyphens), whose
first and last characters are not the hyphen (code point 45); consequently it
is idempotent. -/
theorem C10_sanitize_cluster_name_idempotent (name : List Nat) :
    (∀ c ∈ sanitize_cluster_name name, isAllowedChar c = true) ∧
    (sanitize_cluster_name name).head? ≠ some 45 ∧
    (sanitize_cluster_name name).getLast? ≠ some 45 ∧
    sanitize_cluster_name (sanitize_cluster_name name)
      = sanitize_cluster_name name := by
  have hall : ∀ c ∈ sanitize_cluster_name name, isAllowedChar c = true := by
    intro c hc
    unfold sanitize_cluster_name at hc
    rw [trimTrailing_eq_rdropWhile] at hc
    have hc2 := (List.rdropWhile_prefix _ _).sublist.mem hc
    rw [trimLeading_eq_dropWhile] at hc2
    have hc3 := (List.dropWhile_suffix _).sublist.mem hc2
    exact isAllowedChar_mem_subDisallowed _ c hc3
  have hhead : (sanitize_cluster_name name).head? ≠ some 45 :=
    trimTrailing_head_preserved _ (trimLeading_head_ne _)
  have hlast : (sanitize_cluster_name name).getLast? ≠ some 45 :=
    trimTrailing_getLast_ne _
  refine ⟨hall, hhead, hlast, ?_⟩
  show trimTrailingHyphens (trimLeadingHyphens (subDisallowed
    ((sanitize_cluster_name name).map lowerChar))) = sanitize_cluster_name name
  rw [map_lowerChar_fixed _ hall, subDisallowed_fixed _ hall,
    trimLeading_fixed _ hhead, trimTrailing_fixed _ hlast]

/-- Witness for C10: on the code points of `"-Hello!"` the sanitizer yields
the code points of `"hello"`, whose characters are all allowed, whose ends
are not hyphens, and which the sanitizer maps to itself. -/
theorem C10_sanitize_cluster_name_idempotent_witness :
    sanitize_cluster_name [45, 72, 101, 108, 108, 111, 33]
      = [104, 101, 108, 108, 111] ∧
    isAllowedChar 104 = true ∧
    (sanitize_cluster_name [45, 72, 101, 108, 108, 111, 33]).head? ≠ some 45 ∧
    (sanitize_cluster_name [45, 72, 101, 108, 108, 111, 33]).getLast? ≠ some 45 ∧
    sanitize_cluster_name (sanitize_cluster_name [45, 72, 101, 108, 108, 111, 33])
      = sanitize_cluster_name [45, 72, 101, 108, 108, 111, 33] := by
  have h := C10_sanitize_cluster_name_idempotent [45, 72, 101, 108, 108, 111, 33]
  exact ⟨by decide, h.1 104 (by decide), h.2.1, h.2.2.1, h.2.2.2⟩

end Databricks
